import Mathlib

/-!
Shallow embedding of `spawn.py`, the single source file of the
`torch_template` repository: a launcher that loads a JSON config,
optionally backs up artifacts, initializes the experiment tracker,
spawns one worker per CUDA device, and whose worker body builds data
loaders, wraps the model in DDP, and runs an epoch loop of
train/validate/checkpoint/log.

Side-effecting calls (backup, wandb, loader construction, process-group
initialization, training steps, checkpointing) are modelled as events in
a trace; the external quantities the script reads (the CUDA device
count, NCCL availability, the metric dictionaries returned by `train`
and `val`) are parameters of the embedding.
-/

namespace Spawn

/-- JSON values as far as the config is concerned: the fields compared
with `=="True"` can hold a string, a boolean, or a number. -/
inductive JValue where
  | str (s : String)
  | bool (b : Bool)
  | num (n : Int)
  deriving DecidableEq, Repr

/-- The `"mode"` object of the JSON config. -/
structure Mode where
  backup : JValue
  Train : JValue
  deriving DecidableEq, Repr

/-- The fields of the JSON config that `spawn.py` reads. -/
structure Config where
  mode : Mode
  project : String
  gpus : String
  batch_size : Nat
  num_workers : Nat
  img_size : Nat
  srcDir : String
  saveDir : String
  learning_rate : ℚ
  epochs : Nat
  deriving DecidableEq, Repr

/-- The metric dictionary produced by one epoch: `train` returns
`acc`/`loss`, and `val` adds `val_acc`/`val_loss`. -/
structure Metrics where
  acc : ℚ
  loss : ℚ
  val_acc : ℚ
  val_loss : ℚ
  deriving DecidableEq, Repr

/-- A sampler passed to a `DataLoader`; `spawn.py` only ever builds
`DistributedSampler(train_set, shuffle=True)`. -/
inductive Sampler where
  | distributed (shuffle : Bool)
  deriving DecidableEq, Repr

/-- The observable actions of `spawn.py`, in the order the script
performs them. -/
inductive Event where
  | backupCall
  | wandbInit (project : String)
  | wandbConfigUpdate
  | selectDevice (device : String)
  | cudaDevice (device : String)
  | spawn (nprocs : Nat)
  | loggerSetup
  | initProcessGroup (backend : String) (initMethod : String)
      (worldSize : Nat) (rank : Nat)
  | buildTrainLoader (batchSize numWorkers : Nat) (shuffle dropLast : Bool)
      (sampler : Option Sampler)
  | buildValLoader (batchSize numWorkers : Nat) (shuffle dropLast : Bool)
      (sampler : Option Sampler)
  | buildModel
  | wandbWatch
  | modelToDevice (gpu : Nat)
  | wrapDDP (deviceIds : List Nat) (outputDevice : Nat) (findUnused : Bool)
  | buildOptimizer (lr : ℚ)
  | criterionCuda (gpu : Nat)
  | trainStep (epoch : Nat)
  | valStep (epoch : Nat)
  | saveCheckpoint (epoch : Nat) (val_acc : ℚ) (is_best : Bool)
  | wandbLog (epoch : Nat) (acc loss val_acc val_loss : ℚ)
  | wandbFinish
  | logFinish
  deriving DecidableEq, Repr

/-- `select_device`, line 32: lower-case, strip, drop a `cuda:` prefix. -/
def select_device_str (device : String) : String :=
  ((device.trim).toLower).replace "cuda:" ""

/-- The trace of `main(args)` (lines 42-63): backup when
`args["mode"]["backup"]=="True"`, wandb init/update when
`args["mode"]["Train"]=="True"`, device selection by the length of the
`gpus` string, then `mp.spawn` with `nprocs = torch.cuda.device_count()`. -/
def mainTrace (cfg : Config) (deviceCount : Nat) : List Event :=
  (if cfg.mode.backup = JValue.str "True" then [Event.backupCall] else [])
  ++ (if cfg.mode.Train = JValue.str "True" then
        [Event.wandbInit cfg.project, Event.wandbConfigUpdate] else [])
  ++ (if 1 < cfg.gpus.length then
        [Event.selectDevice (select_device_str cfg.gpus)]
      else [Event.cudaDevice ("cuda:" ++ cfg.gpus)])
  ++ [Event.spawn deviceCount]

/-- The `nprocs` arguments of the `mp.spawn` events of a trace. -/
def spawnCounts (t : List Event) : List Nat :=
  t.filterMap fun e => match e with
    | Event.spawn n => some n
    | _ => none

/-- Line 66/99/121/137: `(ngpus_per_node == 1) or (ngpus_per_node > 1 and
gpu == 0)`, the guard of logging, `wandb.watch`, checkpointing and
`wandb.log`. -/
def workerLogCond (ngpus gpu : Nat) : Bool :=
  (ngpus == 1) || (decide (1 < ngpus) && (gpu == 0))

/-- The state threaded through the epoch loop: the two `best_*`
variables of lines 113-114 and the trace produced so far. -/
structure LoopState where
  best_val_loss : ℚ
  best_val_acc : ℚ
  events : List Event
  deriving DecidableEq, Repr

/-- Line 119: `is_best_loss = metrics_summary["val_loss"] < best_val_loss`. -/
def is_best_loss_at (s : LoopState) (ms : Metrics) : Bool :=
  decide (ms.val_loss < s.best_val_loss)

/-- Line 120: `is_best_acc = metrics_summary["val_acc"] > best_val_acc`. -/
def is_best_acc_at (s : LoopState) (ms : Metrics) : Bool :=
  decide (ms.val_acc > s.best_val_acc)

/-- One iteration of the epoch loop (lines 116-136): run `train`, then
`val`, compute the two `is_best` flags against the current `best_*`
variables, and under the rank guard save a checkpoint (with
`epoch = epoch + 1` and `is_best = is_best_loss`; `is_best_acc` is
computed but passed nowhere) and log the metrics. The `best_*` fields
are not reassigned, as in the source. -/
def epochBody (cond : Bool) (m : Nat → Metrics) (s : LoopState) (epoch : Nat) :
    LoopState :=
  let ms := m epoch
  let is_best_loss := is_best_loss_at s ms
  let _is_best_acc := is_best_acc_at s ms
  { s with events := s.events
      ++ [Event.trainStep epoch, Event.valStep epoch]
      ++ (if cond then
            [Event.saveCheckpoint (epoch + 1) ms.val_acc is_best_loss,
             Event.wandbLog epoch ms.acc ms.loss ms.val_acc ms.val_loss]
          else []) }

/-- The epoch loop of lines 113-136, starting from
`best_val_loss = 0`, `best_val_acc = 0`. -/
def main_workerLoop (cond : Bool) (m : Nat → Metrics) (epochs : Nat) :
    LoopState :=
  (List.range epochs).foldl (epochBody cond m) ⟨0, 0, []⟩

/-- The trace of the body of `main_worker(gpu, ngpus_per_node)`
(lines 65-139). `nccl` is `dist.is_nccl_available()`; `m e` is the
metric dictionary the external `train`/`val` calls produce at epoch
`e`. -/
def main_workerTrace (gpu ngpus : Nat) (nccl : Bool) (cfg : Config)
    (m : Nat → Metrics) : List Event :=
  (if workerLogCond ngpus gpu then [Event.loggerSetup] else [])
  ++ (if 1 < ngpus then
        [Event.initProcessGroup (if nccl then "nccl" else "gloo")
          "tcp://127.0.0.1:3333" ngpus gpu]
      else [])
  ++ [Event.buildTrainLoader cfg.batch_size cfg.num_workers false true
        (if 1 < ngpus then some (Sampler.distributed true) else none)]
  ++ [Event.buildValLoader cfg.batch_size cfg.num_workers false true none]
  ++ [Event.buildModel]
  ++ (if workerLogCond ngpus gpu then [Event.wandbWatch] else [])
  ++ (if 1 < ngpus then
        [Event.modelToDevice gpu, Event.wrapDDP [gpu] gpu true]
      else [])
  ++ [Event.buildOptimizer cfg.learning_rate, Event.criterionCuda gpu]
  ++ (main_workerLoop (workerLogCond ngpus gpu) m cfg.epochs).events
  ++ (if workerLogCond ngpus gpu then [Event.wandbFinish, Event.logFinish]
      else [])

/-- Number of parameters in `def main_worker(gpu, ngpus_per_node)`
(line 65). -/
def main_worker_arity : Nat := 2

/-- Number of extra arguments in
`mp.spawn(main_worker, nprocs=ngpus_per_node, args=(ngpus_per_node, args))`
(line 63): the tuple `(ngpus_per_node, args)`. -/
def mp_spawn_extra_args : Nat := 2

/-- `mp.spawn` calls the worker function as `fn(i, *args)`: the process
index plus the extra arguments. -/
def mp_spawn_call_argc : Nat := 1 + mp_spawn_extra_args

/-- Result of a Python call: either the callee runs and returns, or the
call fails before the body with a `TypeError`. -/
inductive PyResult (α : Type) where
  | ok (a : α)
  | typeError
  deriving DecidableEq, Repr

/-- Calling a Python function of fixed arity with positional arguments:
the body runs only when the argument count matches the arity. -/
def invoke {α : Type} (arity argc : Nat) (body : Unit → α) : PyResult α :=
  if argc = arity then PyResult.ok (body ()) else PyResult.typeError

/-- What one spawned worker process does: `mp.spawn` invokes
`main_worker` with `1 + 2` positional arguments against its arity. -/
def spawnWorkerInvoke (gpu ngpus : Nat) (nccl : Bool) (cfg : Config)
    (m : Nat → Metrics) : PyResult (List Event) :=
  invoke main_worker_arity mp_spawn_call_argc
    (fun _ => main_workerTrace gpu ngpus nccl cfg m)

/-- The global interpreter state the module-level statements of
lines 21-25 touch. -/
structure TorchState where
  torchSeed : Nat
  npSeed : Nat
  cudnnDeterministic : Bool
  cudnnBenchmark : Bool
  deriving DecidableEq, Repr

/-- Line 21. -/
def SEED : Nat := 123

/-- `torch.manual_seed(n)` (line 22). -/
def torch_manual_seed (n : Nat) (s : TorchState) : TorchState :=
  { s with torchSeed := n }

/-- `torch.backends.cudnn.deterministic = b` (line 23). -/
def cudnn_set_deterministic (b : Bool) (s : TorchState) : TorchState :=
  { s with cudnnDeterministic := b }

/-- `torch.backends.cudnn.benchmark = b` (line 24). -/
def cudnn_set_benchmark (b : Bool) (s : TorchState) : TorchState :=
  { s with cudnnBenchmark := b }

/-- `np.random.seed(n)` (line 25). -/
def np_random_seed (n : Nat) (s : TorchState) : TorchState :=
  { s with npSeed := n }

/-- The module-level statements of lines 21-25, in order. -/
def moduleInit (s : TorchState) : TorchState :=
  np_random_seed SEED
    (cudnn_set_benchmark false
      (cudnn_set_deterministic true
        (torch_manual_seed SEED s)))

/-- The events one epoch iteration appends once the `best_*` variables
are known to be `0`. -/
def stepEvents (cond : Bool) (m : Nat → Metrics) (e : Nat) : List Event :=
  [Event.trainStep e, Event.valStep e]
  ++ (if cond then
        [Event.saveCheckpoint (e + 1) (m e).val_acc (decide ((m e).val_loss < 0)),
         Event.wandbLog e (m e).acc (m e).loss (m e).val_acc (m e).val_loss]
      else [])

/-- The `best_*` variables stay `0` through the whole loop, and the loop
trace is the per-epoch events in epoch order. -/
theorem main_workerLoop_eq (cond : Bool) (m : Nat → Metrics) (E : Nat) :
    main_workerLoop cond m E =
      ⟨0, 0, (List.range E).flatMap (stepEvents cond m)⟩ := by
  induction E with
  | zero => rfl
  | succ E ih =>
      unfold main_workerLoop at ih ⊢
      rw [List.range_succ, List.foldl_append, ih, List.flatMap_append]
      simp [epochBody, stepEvents, is_best_loss_at, is_best_acc_at]

/-- Every event of the epoch loop is a train step, a validation step, a
checkpoint save, or a metric log. -/
theorem mem_loop_shape (cond : Bool) (m : Nat → Metrics) (E : Nat) (x : Event)
    (hx : x ∈ (main_workerLoop cond m E).events) :
    (∃ k, x = Event.trainStep k) ∨ (∃ k, x = Event.valStep k) ∨
    (∃ k a b, x = Event.saveCheckpoint k a b) ∨
    (∃ k a l va vl, x = Event.wandbLog k a l va vl) := by
  rw [main_workerLoop_eq] at hx
  simp only [List.mem_flatMap, List.mem_range] at hx
  obtain ⟨k, -, hmem⟩ := hx
  unfold stepEvents at hmem
  rcases cond with _ | _ <;> simp at hmem
  · rcases hmem with h | h
    · exact Or.inl ⟨k, h⟩
    · exact Or.inr (Or.inl ⟨k, h⟩)
  · rcases hmem with h | h | h | h
    · exact Or.inl ⟨k, h⟩
    · exact Or.inr (Or.inl ⟨k, h⟩)
    · exact Or.inr (Or.inr (Or.inl ⟨k + 1, (m k).val_acc, decide ((m k).val_loss < 0), h⟩))
    · exact Or.inr (Or.inr (Or.inr
        ⟨k, (m k).acc, (m k).loss, (m k).val_acc, (m k).val_loss, h⟩))

/-- The epoch loop never initializes a process group. -/
theorem initPG_not_mem_loop (cond : Bool) (m : Nat → Metrics) (E : Nat)
    (b i : String) (w r : Nat) :
    Event.initProcessGroup b i w r ∉ (main_workerLoop cond m E).events := by
  intro h
  rcases mem_loop_shape cond m E _ h with ⟨k, hk⟩ | ⟨k, hk⟩ |
    ⟨k, a, bb, hk⟩ | ⟨k, a, l, va, vl, hk⟩ <;> simp at hk

/-- The epoch loop never moves the model to a device. -/
theorem modelToDevice_not_mem_loop (cond : Bool) (m : Nat → Metrics) (E : Nat)
    (g : Nat) :
    Event.modelToDevice g ∉ (main_workerLoop cond m E).events := by
  intro h
  rcases mem_loop_shape cond m E _ h with ⟨k, hk⟩ | ⟨k, hk⟩ |
    ⟨k, a, bb, hk⟩ | ⟨k, a, l, va, vl, hk⟩ <;> simp at hk

/-- The epoch loop never wraps the model in DDP. -/
theorem wrapDDP_not_mem_loop (cond : Bool) (m : Nat → Metrics) (E : Nat)
    (ids : List Nat) (od : Nat) (fu : Bool) :
    Event.wrapDDP ids od fu ∉ (main_workerLoop cond m E).events := by
  intro h
  rcases mem_loop_shape cond m E _ h with ⟨k, hk⟩ | ⟨k, hk⟩ |
    ⟨k, a, bb, hk⟩ | ⟨k, a, l, va, vl, hk⟩ <;> simp at hk

/-- The epoch loop never builds a train loader. -/
theorem buildTrainLoader_not_mem_loop (cond : Bool) (m : Nat → Metrics)
    (E : Nat) (bs nw : Nat) (sh dl : Bool) (sp : Option Sampler) :
    Event.buildTrainLoader bs nw sh dl sp ∉ (main_workerLoop cond m E).events := by
  intro h
  rcases mem_loop_shape cond m E _ h with ⟨k, hk⟩ | ⟨k, hk⟩ |
    ⟨k, a, bb, hk⟩ | ⟨k, a, l, va, vl, hk⟩ <;> simp at hk

/-- The epoch loop never builds a validation loader. -/
theorem buildValLoader_not_mem_loop (cond : Bool) (m : Nat → Metrics)
    (E : Nat) (bs nw : Nat) (sh dl : Bool) (sp : Option Sampler) :
    Event.buildValLoader bs nw sh dl sp ∉ (main_workerLoop cond m E).events := by
  intro h
  rcases mem_loop_shape cond m E _ h with ⟨k, hk⟩ | ⟨k, hk⟩ |
    ⟨k, a, bb, hk⟩ | ⟨k, a, l, va, vl, hk⟩ <;> simp at hk

/-- The epoch loop never calls `wandb.watch`. -/
theorem wandbWatch_not_mem_loop (cond : Bool) (m : Nat → Metrics) (E : Nat) :
    Event.wandbWatch ∉ (main_workerLoop cond m E).events := by
  intro h
  rcases mem_loop_shape cond m E _ h with ⟨k, hk⟩ | ⟨k, hk⟩ |
    ⟨k, a, bb, hk⟩ | ⟨k, a, l, va, vl, hk⟩ <;> simp at hk

end Spawn

namespace Spawn

/-- C1: whatever the configuration, external device count, NCCL
availability and training metrics, every worker process spawned by
`mp.spawn` fails with a `TypeError`: the call passes `1 + 2` positional
arguments (the index plus the tuple `(ngpus_per_node, args)`) to
`main_worker`, whose arity is `2`, so the call never returns the trace
of the worker body — data loading, training and checkpointing are
unreachable. -/
theorem c1_spawned_worker_typeError (gpu ngpus : Nat) (nccl : Bool)
    (cfg : Config) (m : Nat → Metrics) :
    mp_spawn_call_argc ≠ main_worker_arity ∧
    spawnWorkerInvoke gpu ngpus nccl cfg m = PyResult.typeError ∧
    ∀ t : List Event, spawnWorkerInvoke gpu ngpus nccl cfg m ≠ PyResult.ok t := by
  refine ⟨by decide, rfl, fun t h => ?_⟩
  simp [spawnWorkerInvoke, invoke, mp_spawn_call_argc, mp_spawn_extra_args,
    main_worker_arity] at h

/-- C3: `main` performs the backup step iff the config's `mode.backup`
field is exactly the string `"True"`; in particular a JSON boolean
`true` in that field skips the backup. -/
theorem c3_backup_iff (cfg : Config) (dc : Nat) :
    (Event.backupCall ∈ mainTrace cfg dc ↔ cfg.mode.backup = JValue.str "True") ∧
    Event.backupCall ∉
      mainTrace { cfg with mode := { cfg.mode with backup := JValue.bool true } } dc := by
  constructor
  · by_cases hb : cfg.mode.backup = JValue.str "True" <;>
      by_cases ht : cfg.mode.Train = JValue.str "True" <;>
      by_cases hg : 1 < cfg.gpus.length <;>
      simp [mainTrace, hb, ht, hg]
  · by_cases ht : cfg.mode.Train = JValue.str "True" <;>
      by_cases hg : 1 < cfg.gpus.length <;>
      simp [mainTrace, ht, hg]

/-- C4: the `nprocs` of the single `mp.spawn` call equals the CUDA
device count, whatever the config — in particular it is unchanged by
replacing the `gpus` field with any string. -/
theorem c4_spawn_count (cfg : Config) (dc : Nat) (g : String) :
    spawnCounts (mainTrace cfg dc) = [dc] ∧
    spawnCounts (mainTrace { cfg with gpus := g } dc) = [dc] := by
  constructor <;>
  · by_cases hb : cfg.mode.backup = JValue.str "True" <;>
      by_cases ht : cfg.mode.Train = JValue.str "True" <;>
      by_cases hg1 : 1 < cfg.gpus.length <;>
      by_cases hg2 : 1 < g.length <;>
      simp [mainTrace, spawnCounts, hb, ht, hg1, hg2]

/-- The epoch loop as the claim words it: for each epoch `0..E-1` in
increasing order, a train step, then a validation step, then — exactly
when `ngpus_per_node == 1` or the worker's rank is `0` — a checkpoint
save and a log of `epoch`, `acc`, `loss`, `val_acc`, `val_loss`. -/
def epochLoopClaim (ngpus gpu : Nat) (m : Nat → Metrics) (E : Nat) :
    List Event :=
  (List.range E).flatMap fun e =>
    [Event.trainStep e, Event.valStep e]
    ++ (if ngpus = 1 ∨ gpu = 0 then
          [Event.saveCheckpoint (e + 1) (m e).val_acc (decide ((m e).val_loss < 0)),
           Event.wandbLog e (m e).acc (m e).loss (m e).val_acc (m e).val_loss]
        else [])

/-- C2: for every spawned worker (so `1 ≤ ngpus`), the epoch loop of
`main_worker` produces exactly the claim's trace: epochs `0..E-1` in
order, `train` before `val` in each, and checkpoint-plus-log exactly
when `ngpus_per_node == 1` or the rank is `0`. -/
theorem c2_epoch_loop (ngpus gpu : Nat) (m : Nat → Metrics) (E : Nat)
    (h : 1 ≤ ngpus) :
    (main_workerLoop (workerLogCond ngpus gpu) m E).events =
      epochLoopClaim ngpus gpu m E := by
  have hc : (workerLogCond ngpus gpu = true) ↔ (ngpus = 1 ∨ gpu = 0) := by
    simp only [workerLogCond, Bool.or_eq_true, Bool.and_eq_true, beq_iff_eq,
      decide_eq_true_eq]
    omega
  rw [main_workerLoop_eq]
  unfold epochLoopClaim stepEvents
  by_cases hd : ngpus = 1 ∨ gpu = 0
  · simp [hc.mpr hd, hd]
  · have hf : workerLogCond ngpus gpu = false := by
      rcases hwc : workerLogCond ngpus gpu with _ | _
      · rfl
      · exact absurd (hc.mp hwc) hd
    simp [hf, hd]

/-- Witness for C2 at `ngpus = 2`, `gpu = 0`, two epochs, constant
metrics. -/
theorem c2_epoch_loop_witness :
    1 ≤ 2 ∧
    (main_workerLoop (workerLogCond 2 0) (fun _ => ⟨1, 2, 3, 4⟩) 2).events =
      epochLoopClaim 2 0 (fun _ => ⟨1, 2, 3, 4⟩) 2 :=
  ⟨by decide, c2_epoch_loop 2 0 (fun _ => ⟨1, 2, 3, 4⟩) 2 (by decide)⟩

/-- C5: the worker moves the model to its GPU and wraps it in DDP
(`device_ids=[gpu]`, `output_device=gpu`, `find_unused_parameters=True`)
iff `ngpus_per_node > 1`; when `ngpus_per_node = 1` neither event ever
occurs, for any arguments. -/
theorem c5_ddp_iff (gpu ngpus : Nat) (nccl : Bool) (cfg : Config)
    (m : Nat → Metrics) (g : Nat) (ids : List Nat) (od : Nat) (fu : Bool) :
    ((Event.modelToDevice g ∈ main_workerTrace gpu ngpus nccl cfg m) ↔
      (1 < ngpus ∧ g = gpu)) ∧
    ((Event.wrapDDP ids od fu ∈ main_workerTrace gpu ngpus nccl cfg m) ↔
      (1 < ngpus ∧ ids = [gpu] ∧ od = gpu ∧ fu = true)) := by
  unfold main_workerTrace
  by_cases hcnd : workerLogCond ngpus gpu = true <;>
    by_cases hg : 1 < ngpus <;>
    simp [hcnd, hg, modelToDevice_not_mem_loop, wrapDDP_not_mem_loop]

/-- C6: `wandb.init` (with the config's project) and
`wandb.config.update` happen in `main` iff `mode.Train` is the string
`"True"`; the worker trace — which contains the per-epoch `wandb.log`
and the `wandb.watch` call — is entirely independent of `mode.Train`,
and `wandb.watch` occurs there iff the rank guard holds. -/
theorem c6_wandb_guard (cfg : Config) (dc : Nat) (p : String)
    (gpu ngpus : Nat) (nccl : Bool) (m : Nat → Metrics) (t : JValue) :
    ((Event.wandbInit p ∈ mainTrace cfg dc) ↔
      (cfg.mode.Train = JValue.str "True" ∧ p = cfg.project)) ∧
    ((Event.wandbConfigUpdate ∈ mainTrace cfg dc) ↔
      cfg.mode.Train = JValue.str "True") ∧
    (main_workerTrace gpu ngpus nccl
        { cfg with mode := { cfg.mode with Train := t } } m =
      main_workerTrace gpu ngpus nccl cfg m) ∧
    ((Event.wandbWatch ∈ main_workerTrace gpu ngpus nccl cfg m) ↔
      workerLogCond ngpus gpu = true) := by
  refine ⟨?_, ?_, rfl, ?_⟩
  · by_cases hb : cfg.mode.backup = JValue.str "True" <;>
      by_cases ht : cfg.mode.Train = JValue.str "True" <;>
      by_cases hg : 1 < cfg.gpus.length <;>
      simp [mainTrace, hb, ht, hg]
  · by_cases hb : cfg.mode.backup = JValue.str "True" <;>
      by_cases ht : cfg.mode.Train = JValue.str "True" <;>
      by_cases hg : 1 < cfg.gpus.length <;>
      simp [mainTrace, hb, ht, hg]
  · unfold main_workerTrace
    by_cases hcnd : workerLogCond ngpus gpu = true <;>
      by_cases hg : 1 < ngpus <;>
      simp [hcnd, hg, wandbWatch_not_mem_loop]

/-- C7: a worker joins a process group iff `ngpus_per_node > 1`, and
then with backend `"nccl"` when NCCL is available and `"gloo"`
otherwise, init method `tcp://127.0.0.1:3333`, world size
`ngpus_per_node`, and rank equal to its spawn index. -/
theorem c7_process_group (gpu ngpus : Nat) (nccl : Bool) (cfg : Config)
    (m : Nat → Metrics) (b i : String) (w r : Nat) :
    (Event.initProcessGroup b i w r ∈ main_workerTrace gpu ngpus nccl cfg m) ↔
      (1 < ngpus ∧ b = (if nccl then "nccl" else "gloo") ∧
       i = "tcp://127.0.0.1:3333" ∧ w = ngpus ∧ r = gpu) := by
  unfold main_workerTrace
  by_cases hcnd : workerLogCond ngpus gpu = true <;>
    by_cases hg : 1 < ngpus <;>
    simp [hcnd, hg, initPG_not_mem_loop]

/-- C8: a train loader is built exactly with the config's batch size
and worker count, `shuffle=False`, `drop_last=True`, and a shuffling
`DistributedSampler` iff `ngpus_per_node > 1` (no sampler otherwise);
the validation loader likewise, but never with any sampler. -/
theorem c8_loaders (gpu ngpus : Nat) (nccl : Bool) (cfg : Config)
    (m : Nat → Metrics) (bs nw : Nat) (sh dl : Bool) (sp : Option Sampler) :
    ((Event.buildTrainLoader bs nw sh dl sp ∈
        main_workerTrace gpu ngpus nccl cfg m) ↔
      (bs = cfg.batch_size ∧ nw = cfg.num_workers ∧ sh = false ∧ dl = true ∧
       sp = (if 1 < ngpus then some (Sampler.distributed true) else none))) ∧
    ((Event.buildValLoader bs nw sh dl sp ∈
        main_workerTrace gpu ngpus nccl cfg m) ↔
      (bs = cfg.batch_size ∧ nw = cfg.num_workers ∧ sh = false ∧ dl = true ∧
       sp = none)) := by
  unfold main_workerTrace
  by_cases hcnd : workerLogCond ngpus gpu = true <;>
    by_cases hg : 1 < ngpus <;>
    simp [hcnd, hg, buildTrainLoader_not_mem_loop, buildValLoader_not_mem_loop]

/-- C9: after any number of epochs the loop state still has
`best_val_loss = 0` and `best_val_acc = 0` (they are never reassigned),
so at every epoch `e` the `is_best_loss` flag computed there equals
`val_loss < 0`, the `is_best_acc` flag equals `val_acc > 0`, and the
events appended at epoch `e` carry `is_best = (val_loss < 0)` —
independent of all previous epochs. -/
theorem c9_best_never_updated (cond : Bool) (m : Nat → Metrics) (e : Nat) :
    main_workerLoop cond m (e + 1) =
      epochBody cond m (main_workerLoop cond m e) e ∧
    (main_workerLoop cond m e).best_val_loss = 0 ∧
    (main_workerLoop cond m e).best_val_acc = 0 ∧
    is_best_loss_at (main_workerLoop cond m e) (m e) =
      decide ((m e).val_loss < 0) ∧
    is_best_acc_at (main_workerLoop cond m e) (m e) =
      decide ((m e).val_acc > 0) ∧
    (epochBody cond m (main_workerLoop cond m e) e).events =
      (main_workerLoop cond m e).events
      ++ [Event.trainStep e, Event.valStep e]
      ++ (if cond then
            [Event.saveCheckpoint (e + 1) (m e).val_acc
               (decide ((m e).val_loss < 0)),
             Event.wandbLog e (m e).acc (m e).loss (m e).val_acc (m e).val_loss]
          else []) := by
  refine ⟨?_, ?_⟩
  · unfold main_workerLoop
    rw [List.range_succ, List.foldl_append]
    rfl
  rw [main_workerLoop_eq]
  refine ⟨rfl, rfl, rfl, rfl, ?_⟩
  simp [epochBody, is_best_loss_at, is_best_acc_at]

/-- C10: the module-level statements fix `torch`'s and NumPy's seeds to
`123`, set cuDNN to deterministic mode and disable benchmarking, so the
post-import state is independent of the prior interpreter state and any
pseudo-random sequence drawn from it is identical across two runs. -/
theorem c10_seeds_fixed (s1 s2 : TorchState) :
    moduleInit s1 = moduleInit s2 ∧
    (moduleInit s1).torchSeed = 123 ∧ (moduleInit s1).npSeed = 123 ∧
    (moduleInit s1).cudnnDeterministic = true ∧
    (moduleInit s1).cudnnBenchmark = false ∧
    ∀ draw : TorchState → List ℚ, draw (moduleInit s1) = draw (moduleInit s2) :=
  ⟨rfl, rfl, rfl, rfl, rfl, fun _ => rfl⟩

end Spawn



